import Mathlib

/-!
Shallow embedding of the happy-server realtime layer
(`src/packages/happy-server/sources/app/api/socket.ts`): the socket.io
connection gate in `startSocket`, the raw WebSocket upgrade bridge
`proxyOpenClawUpgrade`, and the `agentNotifyRoutes` HTTP endpoint.

JavaScript strings that are tested for truthiness (`!token`, `&& sessionId`,
...) are modelled as `Option String`, with the empty string also falsy.
Effectful handlers are modelled as pure functions returning the ordered list
of observable actions they perform.
-/

namespace HappyServer

/-- JS truthiness test for an optional string: `undefined` and `""` are falsy. -/
def strTruthy : Option String → Bool
  | none => false
  | some s => !s.isEmpty

/-- Client type values accepted by the handshake:
`'session-scoped' | 'user-scoped' | 'machine-scoped'`. -/
inductive ClientType
  | sessionScoped
  | userScoped
  | machineScoped
deriving DecidableEq, Repr

/-- The `socket.handshake.auth` fields read at the top of the connection
handler (socket.ts lines 86–89). -/
structure HandshakeAuth where
  token : Option String
  clientType : Option ClientType
  sessionId : Option String
  machineId : Option String
deriving DecidableEq, Repr

/-- The tagged `ClientConnection` union constructed at socket.ts lines
127–148.  The underlying socket handle is opaque and carried as a number. -/
inductive ClientConnection
  | sessionScoped (socket : Nat) (userId : String) (sessionId : String)
  | userScoped (socket : Nat) (userId : String)
  | machineScoped (socket : Nat) (userId : String) (machineId : String)
deriving DecidableEq, Repr

/-- Discriminant (`connectionType`) of a `ClientConnection`. -/
def ClientConnection.connectionType : ClientConnection → ClientType
  | .sessionScoped _ _ _ => .sessionScoped
  | .userScoped _ _ => .userScoped
  | .machineScoped _ _ _ => .machineScoped

/-- Recipient filters of `emitEphemeral`; `agentNotifyRoutes` passes none. -/
inductive RecipientFilter
  | all
  | userScopedOnly
deriving DecidableEq, Repr

/-- Ephemeral payloads built in socket.ts.

`machineActivity` is modelled from the spec: `buildMachineActivityEphemeral`
lives in `eventRouter.ts`, which is not part of the sources; the spec gives
its payload as `{ type: "machine-activity", machineId, online, timestamp }`. -/
inductive EphemeralPayload
  | machineActivity (machineId : String) (online : Bool) (timestamp : Nat)
  | notification (message : String) (timestamp : Nat)
deriving DecidableEq, Repr

/-- Observable actions of the connection / disconnect handlers, in program
order. -/
inductive SocketAction
  | emitError (message : String)
  | disconnect
  | addConnection (userId : String) (conn : ClientConnection)
  | removeConnection (userId : String) (conn : ClientConnection)
  | incrementGauge (ct : ClientType)
  | decrementGauge (ct : ClientType)
  | emitEphemeral (userId : String) (payload : EphemeralPayload)
      (recipientFilter : Option RecipientFilter)
deriving DecidableEq, Repr

/-- The `ClientConnection` built for an accepted connection
(socket.ts lines 126–148): the branch on `metadata.clientType` where
`metadata.clientType = clientType || 'user-scoped'`. -/
def buildConnection (hs : HandshakeAuth) (socket : Nat) (userId : String) :
    ClientConnection :=
  let metadataClientType := hs.clientType.getD .userScoped
  if metadataClientType = .sessionScoped ∧ strTruthy hs.sessionId then
    .sessionScoped socket userId (hs.sessionId.getD "")
  else if metadataClientType = .machineScoped ∧ strTruthy hs.machineId then
    .machineScoped socket userId (hs.machineId.getD "")
  else
    .userScoped socket userId

/-- The `io.on("connection")` handler of `startSocket`
(socket.ts lines 84–199), as the ordered list of observable actions.
`verifyToken` models `auth.verifyToken` from the spec contract
(`verify(token) → { userId } | failure`, an opaque external call). -/
def handleConnection (hs : HandshakeAuth) (socket : Nat)
    (verifyToken : String → Option String) (now : Nat) : List SocketAction :=
  if ¬ strTruthy hs.token then
    [.emitError "Missing authentication token", .disconnect]
  else if hs.clientType = some .sessionScoped ∧ ¬ strTruthy hs.sessionId then
    [.emitError "Session ID required for session-scoped clients", .disconnect]
  else if hs.clientType = some .machineScoped ∧ ¬ strTruthy hs.machineId then
    [.emitError "Machine ID required for machine-scoped clients", .disconnect]
  else
    match verifyToken (hs.token.getD "") with
    | none => [.emitError "Invalid authentication token", .disconnect]
    | some userId =>
      let connection := buildConnection hs socket userId
      [.addConnection userId connection,
       .incrementGauge connection.connectionType] ++
      (if connection.connectionType = .machineScoped then
        [.emitEphemeral userId
          (.machineActivity (hs.machineId.getD "") true now)
          (some .userScopedOnly)]
      else [])

/-- The `socket.on('disconnect')` handler (socket.ts lines 163–181). -/
def handleDisconnect (userId : String) (connection : ClientConnection)
    (now : Nat) : List SocketAction :=
  [.removeConnection userId connection,
   .decrementGauge connection.connectionType] ++
  (match connection with
   | .machineScoped _ _ machineId =>
     [.emitEphemeral userId (.machineActivity machineId false now)
       (some .userScopedOnly)]
   | _ => [])

/-- Whether a `SocketAction` is an `addConnection` registry mutation. -/
def SocketAction.isAddConnection : SocketAction → Bool
  | .addConnection _ _ => true
  | _ => false

/-- Whether a `SocketAction` emits a machine-activity ephemeral event. -/
def SocketAction.isMachineActivityEmit : SocketAction → Bool
  | .emitEphemeral _ (.machineActivity _ _ _) _ => true
  | _ => false

/-! ### Raw upgrade bridge (`proxyOpenClawUpgrade`, socket.ts lines 19–64) -/

/-- Gateway port constant: `const OPENCLAW_GATEWAY_PORT = 18789`. -/
def OPENCLAW_GATEWAY_PORT : Nat := 18789

/-- Reserved socket.io path: `const SOCKET_IO_PATH = '/v1/updates'`. -/
def SOCKET_IO_PATH : String := "/v1/updates"

/-- A header value from `req.headers`: Node gives a string, or an array of
strings for repeated headers. -/
inductive HeaderValue
  | single (s : String)
  | multi (l : List String)
deriving DecidableEq, Repr

/-- The fields of the `IncomingMessage` used by the bridge. `url` is optional
because the code guards it with `req.url ?? '/'` in the path check. -/
structure IncomingMessage where
  method : String
  url : Option String
  headers : List (String × HeaderValue)
deriving DecidableEq, Repr

/-- JS template-literal rendering of `req.url`: `undefined` prints as the
string `"undefined"`. -/
def renderUrl : Option String → String
  | none => "undefined"
  | some u => u

/-- One serialized header line: `` `${k}: ${Array.isArray(v) ? v.join(', ') : v}` ``. -/
def headerLine : String × HeaderValue → String
  | (k, .single s) => k ++ ": " ++ s
  | (k, .multi l) => k ++ ": " ++ String.intercalate ", " l

/-- The bytes written to the gateway on `connect`
(socket.ts lines 35–39): `` `${requestLine}\r\n${headers}\r\n\r\n` `` where
`requestLine = `${req.method} ${req.url} HTTP/1.1`` and `headers` joins the
serialized header lines with `\r\n`. -/
def handshakeReplay (req : IncomingMessage) : String :=
  let requestLine := req.method ++ " " ++ renderUrl req.url ++ " HTTP/1.1"
  let headers := String.intercalate "\r\n" (req.headers.map headerLine)
  requestLine ++ "\r\n" ++ headers ++ "\r\n\r\n"

/-- Byte chunks on a channel. -/
abbrev Chunk := List Nat

/-- Model of encoding a string for the wire. -/
def strBytes (s : String) : Chunk := s.toList.map Char.toNat

/-- Everything written to the gateway after `connect` fires
(socket.ts lines 34–42): the handshake replay, then `head` if non-empty
(`if (head.length > 0) upstream.write(head)`), then every chunk the peer
socket produces, spliced through `socket.pipe(upstream)`. -/
def gatewayInput (req : IncomingMessage) (head : Chunk)
    (peerChunks : List Chunk) : List Chunk :=
  [strBytes (handshakeReplay req)] ++
  (if head.length > 0 then [head] else []) ++
  peerChunks

/-- Everything written to the original peer after `connect` fires: the
gateway's chunks, spliced through `upstream.pipe(socket)`. -/
def peerOutput (gatewayChunks : List Chunk) : List Chunk := gatewayChunks

/-! #### Error/close propagation (socket.ts lines 45–54)

The four handlers are installed immediately after `createConnection`, before
the `connect` event can fire.  `destroy()` on a Node stream is external code;
the source wraps each call in `try { ... } catch { /* ignore */ }`.  We model the
raw destroy pessimistically as an external call that may raise on an
already-destroyed channel, and the wrapped call as catching that. -/

/-- State of the two channels held by the bridge. `connected` records whether
the upstream `connect` event has fired yet. -/
structure BridgeState where
  upstreamDestroyed : Bool
  socketDestroyed : Bool
  connected : Bool
deriving DecidableEq, Repr

/-- Raw `destroy()`: external stream code that may raise when the channel is
already destroyed (worst case allowed by the environment). -/
def destroyRaw (destroyed : Bool) : Except String Bool :=
  if destroyed then .error "already destroyed" else .ok true

/-- Guarded destroy, `try { ch.destroy(); } catch { /* ignore */ }`: the
exception is swallowed and the handler continues. -/
def tryDestroy (destroyed : Bool) : Bool :=
  match destroyRaw destroyed with
  | .ok d => d
  | .error _ => destroyed

/-- Events a bridge handler can receive. -/
inductive BridgeEvent
  | upstreamConnect
  | upstreamError
  | socketError
  | upstreamClose
  | socketClose
deriving DecidableEq, Repr

/-- The bridge's event handlers (socket.ts lines 34, 45–54) as a step
function.  Each failure/close handler destroys the opposite channel via
`tryDestroy`; the result is an `Except` to record that the handler itself
can never raise. -/
def bridgeStep (s : BridgeState) (e : BridgeEvent) : Except String BridgeState :=
  match e with
  | .upstreamConnect => .ok { s with connected := true }
  | .upstreamError => .ok { s with socketDestroyed := tryDestroy s.socketDestroyed }
  | .socketError => .ok { s with upstreamDestroyed := tryDestroy s.upstreamDestroyed }
  | .upstreamClose => .ok { s with socketDestroyed := tryDestroy s.socketDestroyed }
  | .socketClose => .ok { s with upstreamDestroyed := tryDestroy s.upstreamDestroyed }

/-! #### Upgrade interception (socket.ts lines 57–81) -/

/-- Handlers that can sit on the server's `'upgrade'` listener list. -/
inductive UpgradeHandler
  | openClawBridge
  | socketIoHandler
  | other (n : Nat)
deriving DecidableEq, Repr

/-- Model of `server.prependListener('upgrade', h)`: h goes to the front. -/
def prependListener (l : List UpgradeHandler) (h : UpgradeHandler) :
    List UpgradeHandler := h :: l

/-- Model of `server.on('upgrade', h)`: h is appended. -/
def addListener (l : List UpgradeHandler) (h : UpgradeHandler) :
    List UpgradeHandler := l ++ [h]

/-- The `'upgrade'` listener list after `startSocket` runs: first
`app.server.prependListener('upgrade', proxy)` (line 59), then
`new Server(app.server, ...)` (line 66) attaches socket.io's own upgrade
handler with `on`. -/
def startSocketListeners (initial : List UpgradeHandler) : List UpgradeHandler :=
  addListener (prependListener initial .openClawBridge) .socketIoHandler

/-- The path extracted by the interceptor: `(req.url ?? '/').split('?')[0]`.
For a single-character separator, element 0 of the split is the prefix of
the string before the first `'?'`. -/
def upgradePath (url : Option String) : String :=
  ⟨(url.getD "/").toList.takeWhile (fun c => c ≠ '?')⟩

/-- The interceptor's decision (socket.ts lines 60–63): bridge to the
gateway iff the path differs from `SOCKET_IO_PATH`. -/
def upgradeBridges (url : Option String) : Bool :=
  upgradePath url ≠ SOCKET_IO_PATH

/-! ### Agent notify endpoint (`agentNotifyRoutes`) -/

/-- Observable actions of the notify handler, in program order. -/
inductive NotifyAction
  | queryConnections (userId : String)
  | emit (userId : String) (payload : EphemeralPayload)
      (recipientFilter : Option RecipientFilter)
deriving DecidableEq, Repr

/-- The `POST /v1/agent-notify` handler (socket.ts lines 235–265), returning
the HTTP status code and the ordered actions taken against the event router.
`xAgentToken` is the request's `x-agent-token` header; `envAgentNotifyToken`
and `envAgentNotifyUserId` are the `AGENT_NOTIFY_TOKEN` / `AGENT_NOTIFY_USER_ID`
environment variables; `getConnections` models `eventRouter.getConnections`
(absent map entry → `none`). -/
def agentNotifyHandler (xAgentToken : Option String)
    (envAgentNotifyToken : Option String) (envAgentNotifyUserId : Option String)
    (getConnections : String → Option (List ClientConnection))
    (message : String) (now : Nat) : Nat × List NotifyAction :=
  if ¬ strTruthy envAgentNotifyToken ∨ xAgentToken ≠ envAgentNotifyToken then
    (401, [])
  else if ¬ strTruthy envAgentNotifyUserId then
    (503, [])
  else
    let userId := envAgentNotifyUserId.getD ""
    match getConnections userId with
    | none => (503, [.queryConnections userId])
    | some connections =>
      if connections.length = 0 then
        (503, [.queryConnections userId])
      else
        (200, [.queryConnections userId,
               .emit userId (.notification message now) none])

/-! ### Helper lemmas -/

/-- Closed-form case split of `buildConnection` on the raw handshake fields. -/
theorem buildConnection_eq (hs : HandshakeAuth) (socket : Nat) (u : String) :
    buildConnection hs socket u =
      if hs.clientType = some .sessionScoped ∧ strTruthy hs.sessionId then
        .sessionScoped socket u (hs.sessionId.getD "")
      else if hs.clientType = some .machineScoped ∧ strTruthy hs.machineId then
        .machineScoped socket u (hs.machineId.getD "")
      else
        .userScoped socket u := by
  unfold buildConnection
  cases hs.clientType with
  | none => simp
  | some ct => cases ct <;> simp

/-- Shape of the connect-handler trace for an accepted connection. -/
theorem handleConnection_accepted (hs : HandshakeAuth) (socket : Nat)
    (verifyToken : String → Option String) (now : Nat) (u : String)
    (hTok : strTruthy hs.token)
    (hSess : ¬(hs.clientType = some .sessionScoped ∧ ¬ strTruthy hs.sessionId))
    (hMach : ¬(hs.clientType = some .machineScoped ∧ ¬ strTruthy hs.machineId))
    (hVer : verifyToken (hs.token.getD "") = some u) :
    handleConnection hs socket verifyToken now =
      [.addConnection u (buildConnection hs socket u),
       .incrementGauge (buildConnection hs socket u).connectionType] ++
      (if (buildConnection hs socket u).connectionType = .machineScoped then
        [.emitEphemeral u (.machineActivity (hs.machineId.getD "") true now)
          (some .userScopedOnly)]
      else []) := by
  unfold handleConnection
  rw [if_neg (not_not_intro hTok), if_neg hSess, if_neg hMach, hVer]

/-- Truthy optional strings carry a value. -/
theorem strTruthy_some (o : Option String) (h : strTruthy o) :
    ∃ s, o = some s := by
  cases o with
  | none => exact absurd h (by decide)
  | some s => exact ⟨s, rfl⟩

/-! ### Claim theorems -/

/-- C1: a missing credential token, a session-scoped connect without a
session identifier, or a machine-scoped connect without a machine identifier
makes the handler emit a structured error and disconnect, and the trace
contains no `addConnection` — rejection precedes any registry mutation. -/
theorem presence_rejection_no_registration (hs : HandshakeAuth) (socket : Nat)
    (verifyToken : String → Option String) (now : Nat)
    (h : ¬ strTruthy hs.token ∨
      (hs.clientType = some .sessionScoped ∧ ¬ strTruthy hs.sessionId) ∨
      (hs.clientType = some .machineScoped ∧ ¬ strTruthy hs.machineId)) :
    (∃ m, handleConnection hs socket verifyToken now =
      [.emitError m, .disconnect]) ∧
    ∀ a ∈ handleConnection hs socket verifyToken now,
      a.isAddConnection = false := by
  have key : ∃ m, handleConnection hs socket verifyToken now =
      [.emitError m, .disconnect] := by
    by_cases h1 : strTruthy hs.token
    · by_cases h2 : hs.clientType = some .sessionScoped ∧ ¬ strTruthy hs.sessionId
      · refine ⟨"Session ID required for session-scoped clients", ?_⟩
        unfold handleConnection
        rw [if_neg (not_not_intro h1), if_pos h2]
      · by_cases h3 : hs.clientType = some .machineScoped ∧ ¬ strTruthy hs.machineId
        · refine ⟨"Machine ID required for machine-scoped clients", ?_⟩
          unfold handleConnection
          rw [if_neg (not_not_intro h1), if_neg h2, if_pos h3]
        · rcases h with h | h | h
          · exact absurd h1 h
          · exact absurd h h2
          · exact absurd h h3
    · refine ⟨"Missing authentication token", ?_⟩
      unfold handleConnection
      rw [if_pos h1]
  refine ⟨key, ?_⟩
  obtain ⟨m, hm⟩ := key
  rw [hm]
  intro a ha
  rcases List.mem_cons.mp ha with rfl | ha
  · rfl
  · rw [List.mem_singleton.mp ha]
    rfl

/-- Witness for C1: the empty handshake is rejected and never registered. -/
theorem presence_rejection_no_registration_witness :
    (∃ m, handleConnection ⟨none, none, none, none⟩ 0 (fun _ => some "u") 0 =
      [.emitError m, .disconnect]) ∧
    ∀ a ∈ handleConnection ⟨none, none, none, none⟩ 0 (fun _ => some "u") 0,
      a.isAddConnection = false :=
  presence_rejection_no_registration ⟨none, none, none, none⟩ 0
    (fun _ => some "u") 0 (Or.inl (by decide))

/-- C2: for a handshake passing presence validation, a failing verifier
yields the invalid-token rejection trace, and `addConnection` appears in the
trace only when verification resolved to a user. -/
theorem verifier_failure_rejection (hs : HandshakeAuth) (socket : Nat)
    (verifyToken : String → Option String) (now : Nat)
    (hTok : strTruthy hs.token)
    (hSess : ¬(hs.clientType = some .sessionScoped ∧ ¬ strTruthy hs.sessionId))
    (hMach : ¬(hs.clientType = some .machineScoped ∧ ¬ strTruthy hs.machineId)) :
    (verifyToken (hs.token.getD "") = none →
      handleConnection hs socket verifyToken now =
        [.emitError "Invalid authentication token", .disconnect]) ∧
    (∀ a ∈ handleConnection hs socket verifyToken now,
      a.isAddConnection = true → ∃ u, verifyToken (hs.token.getD "") = some u) := by
  constructor
  · intro hv
    unfold handleConnection
    rw [if_neg (not_not_intro hTok), if_neg hSess, if_neg hMach, hv]
  · intro a ha hadd
    cases hv : verifyToken (hs.token.getD "") with
    | some u => exact ⟨u, rfl⟩
    | none =>
      unfold handleConnection at ha
      rw [if_neg (not_not_intro hTok), if_neg hSess, if_neg hMach, hv] at ha
      rcases List.mem_cons.mp ha with rfl | ha
      · exact absurd hadd (by decide)
      · rw [List.mem_singleton.mp ha] at hadd
        exact absurd hadd (by decide)

/-- Witness for C2: a presence-valid handshake whose verifier fails is
rejected with the invalid-token error. -/
theorem verifier_failure_rejection_witness :
    handleConnection ⟨some "t", none, none, none⟩ 0 (fun _ => none) 0 =
      [.emitError "Invalid authentication token", .disconnect] :=
  (verifier_failure_rejection ⟨some "t", none, none, none⟩ 0 (fun _ => none) 0
    (by decide) (by decide) (by decide)).1 rfl

/-- C8: for every accepted connection the constructed `ClientConnection`
variant matches the handshake's `clientType` (missing `clientType` defaults
to user-scoped); session-scoped carries the handshake's `sessionId`,
machine-scoped carries the handshake's `machineId`, user-scoped neither. -/
theorem scoped_connection_matches_client_type (hs : HandshakeAuth)
    (socket : Nat) (verifyToken : String → Option String) (now : Nat)
    (u : String)
    (hTok : strTruthy hs.token)
    (hSess : ¬(hs.clientType = some .sessionScoped ∧ ¬ strTruthy hs.sessionId))
    (hMach : ¬(hs.clientType = some .machineScoped ∧ ¬ strTruthy hs.machineId))
    (hVer : verifyToken (hs.token.getD "") = some u) :
    SocketAction.addConnection u (buildConnection hs socket u) ∈
      handleConnection hs socket verifyToken now ∧
    (hs.clientType = some .sessionScoped →
      ∃ sid, hs.sessionId = some sid ∧
        buildConnection hs socket u = .sessionScoped socket u sid) ∧
    (hs.clientType = some .machineScoped →
      ∃ mid, hs.machineId = some mid ∧
        buildConnection hs socket u = .machineScoped socket u mid) ∧
    ((hs.clientType = none ∨ hs.clientType = some .userScoped) →
      buildConnection hs socket u = .userScoped socket u) := by
  refine ⟨?_, ?_, ?_, ?_⟩
  · rw [handleConnection_accepted hs socket verifyToken now u hTok hSess hMach hVer]
    exact List.mem_cons_self _ _
  · intro hct
    have hsid : strTruthy hs.sessionId := by
      by_contra hx
      exact hSess ⟨hct, hx⟩
    obtain ⟨sid, hsid'⟩ := strTruthy_some _ hsid
    refine ⟨sid, hsid', ?_⟩
    rw [buildConnection_eq, if_pos ⟨hct, hsid⟩, hsid']
    rfl
  · intro hct
    have hmid : strTruthy hs.machineId := by
      by_contra hx
      exact hMach ⟨hct, hx⟩
    obtain ⟨mid, hmid'⟩ := strTruthy_some _ hmid
    refine ⟨mid, hmid', ?_⟩
    have hns : ¬(hs.clientType = some .sessionScoped ∧ strTruthy hs.sessionId) := by
      rintro ⟨hct', -⟩
      rw [hct] at hct'
      exact absurd (Option.some.inj hct') (by decide)
    rw [buildConnection_eq, if_neg hns, if_pos ⟨hct, hmid⟩, hmid']
    rfl
  · intro hct
    have hns : ¬(hs.clientType = some .sessionScoped ∧ strTruthy hs.sessionId) := by
      rintro ⟨hct', -⟩
      rcases hct with hct | hct <;> rw [hct] at hct'
      · exact Option.noConfusion hct'
      · exact absurd (Option.some.inj hct') (by decide)
    have hnm : ¬(hs.clientType = some .machineScoped ∧ strTruthy hs.machineId) := by
      rintro ⟨hct', -⟩
      rcases hct with hct | hct <;> rw [hct] at hct'
      · exact Option.noConfusion hct'
      · exact absurd (Option.some.inj hct') (by decide)
    rw [buildConnection_eq, if_neg hns, if_neg hnm]

/-- Witness for C8: a machine-scoped handshake yields a machine-scoped
connection carrying the handshake's machine identifier. -/
theorem scoped_connection_matches_client_type_witness :
    SocketAction.addConnection "u"
      (buildConnection ⟨some "t", some .machineScoped, none, some "m1"⟩ 0 "u") ∈
      handleConnection ⟨some "t", some .machineScoped, none, some "m1"⟩ 0
        (fun _ => some "u") 0 ∧
    ∃ mid, (some "m1" : Option String) = some mid ∧
      buildConnection ⟨some "t", some .machineScoped, none, some "m1"⟩ 0 "u" =
        .machineScoped 0 "u" mid := by
  have h := scoped_connection_matches_client_type
    ⟨some "t", some .machineScoped, none, some "m1"⟩ 0 (fun _ => some "u") 0 "u"
    (by decide) (by decide) (by decide) rfl
  exact ⟨h.1, h.2.2.1 rfl⟩

/-- C3: an accepted machine-scoped connect followed by its disconnect emits
exactly two machine-activity ephemeral events — online at registration,
offline at teardown, both filtered to user-scoped-only recipients — while an
accepted connection of either other scope emits none at connect or
disconnect. -/
theorem machine_activity_lifecycle (hs : HandshakeAuth) (socket : Nat)
    (verifyToken : String → Option String) (u : String) (t1 t2 : Nat)
    (hTok : strTruthy hs.token)
    (hSess : ¬(hs.clientType = some .sessionScoped ∧ ¬ strTruthy hs.sessionId))
    (hMach : ¬(hs.clientType = some .machineScoped ∧ ¬ strTruthy hs.machineId))
    (hVer : verifyToken (hs.token.getD "") = some u) :
    (handleConnection hs socket verifyToken t1 ++
      handleDisconnect u (buildConnection hs socket u) t2).filter
        SocketAction.isMachineActivityEmit =
      if hs.clientType = some .machineScoped then
        [.emitEphemeral u (.machineActivity (hs.machineId.getD "") true t1)
          (some .userScopedOnly),
         .emitEphemeral u (.machineActivity (hs.machineId.getD "") false t2)
          (some .userScopedOnly)]
      else [] := by
  rw [handleConnection_accepted hs socket verifyToken t1 u hTok hSess hMach hVer]
  by_cases hct : hs.clientType = some .machineScoped
  · have hmid : strTruthy hs.machineId := by
      by_contra hx
      exact hMach ⟨hct, hx⟩
    have hns : ¬(hs.clientType = some .sessionScoped ∧ strTruthy hs.sessionId) := by
      rintro ⟨hct', -⟩
      rw [hct] at hct'
      exact absurd (Option.some.inj hct') (by decide)
    have hb : buildConnection hs socket u =
        .machineScoped socket u (hs.machineId.getD "") := by
      rw [buildConnection_eq, if_neg hns, if_pos ⟨hct, hmid⟩]
    rw [hb, if_pos hct]
    simp [handleDisconnect, ClientConnection.connectionType,
      SocketAction.isMachineActivityEmit, List.filter]
  · have hnm : ¬(hs.clientType = some .machineScoped ∧ strTruthy hs.machineId) := by
      rintro ⟨hct', -⟩
      exact hct hct'
    rw [if_neg hct, buildConnection_eq, if_neg hnm]
    by_cases hss : hs.clientType = some .sessionScoped ∧ strTruthy hs.sessionId
    · rw [if_pos hss]
      simp [handleDisconnect, ClientConnection.connectionType,
        SocketAction.isMachineActivityEmit, List.filter]
    · rw [if_neg hss]
      simp [handleDisconnect, ClientConnection.connectionType,
        SocketAction.isMachineActivityEmit, List.filter]

/-- Witness for C3: a concrete machine-scoped connect/disconnect pair emits
exactly the online and offline machine-activity events. -/
theorem machine_activity_lifecycle_witness :
    (handleConnection ⟨some "t", some .machineScoped, none, some "m1"⟩ 0
        (fun _ => some "u") 5 ++
      handleDisconnect "u"
        (buildConnection ⟨some "t", some .machineScoped, none, some "m1"⟩ 0 "u")
        7).filter SocketAction.isMachineActivityEmit =
      [.emitEphemeral "u" (.machineActivity "m1" true 5) (some .userScopedOnly),
       .emitEphemeral "u" (.machineActivity "m1" false 7) (some .userScopedOnly)] := by
  have h := machine_activity_lifecycle
    ⟨some "t", some .machineScoped, none, some "m1"⟩ 0 (fun _ => some "u") "u" 5 7
    (by decide) (by decide) (by decide) rfl
  rw [h, if_pos rfl]
  rfl

/-- C4: after the gateway connection succeeds, the gateway sees exactly the
serialized request line and headers, then the buffered head bytes, then the
peer's bytes unmodified; the peer sees the gateway's bytes unmodified
(byte-exact round trip, no framing). -/
theorem bridge_replay_and_splice (req : IncomingMessage) (head : Chunk)
    (peerChunks gatewayChunks : List Chunk) :
    (gatewayInput req head peerChunks).flatten =
      strBytes (handshakeReplay req) ++ (head ++ peerChunks.flatten) ∧
    handshakeReplay req =
      req.method ++ " " ++ renderUrl req.url ++ " HTTP/1.1" ++ "\r\n" ++
        String.intercalate "\r\n" (req.headers.map headerLine) ++ "\r\n\r\n" ∧
    peerOutput gatewayChunks = gatewayChunks := by
  refine ⟨?_, rfl, rfl⟩
  unfold gatewayInput
  by_cases hh : head.length > 0
  · rw [if_pos hh]
    simp
  · rw [if_neg hh]
    have h0 : head = [] := List.length_eq_zero.mp (Nat.eq_zero_of_not_pos hh)
    subst h0
    simp

/-- C5: each failure or close handler of the bridge destroys the opposite
channel and never raises, for every bridge state — in particular also when
`connected = false`, i.e. before the gateway connection is established — and
the guarded destroy is idempotent on an already-destroyed channel. -/
theorem bridge_symmetric_idempotent_teardown (s : BridgeState) :
    (∀ e, ∃ s', bridgeStep s e = .ok s') ∧
    (∃ s', bridgeStep s .upstreamError = .ok s' ∧ s'.socketDestroyed = true) ∧
    (∃ s', bridgeStep s .socketError = .ok s' ∧ s'.upstreamDestroyed = true) ∧
    (∃ s', bridgeStep s .upstreamClose = .ok s' ∧ s'.socketDestroyed = true) ∧
    (∃ s', bridgeStep s .socketClose = .ok s' ∧ s'.upstreamDestroyed = true) ∧
    (∀ b, tryDestroy (tryDestroy b) = tryDestroy b) := by
  have htd : ∀ b, tryDestroy b = true := by decide
  refine ⟨?_, ?_, ?_, ?_, ?_, ?_⟩
  · intro e
    cases e <;> exact ⟨_, rfl⟩
  · exact ⟨_, rfl, htd _⟩
  · exact ⟨_, rfl, htd _⟩
  · exact ⟨_, rfl, htd _⟩
  · exact ⟨_, rfl, htd _⟩
  · intro b
    rw [htd b, htd true]

/-- C6: after `startSocket`, the bridge interceptor sits at the head of the
upgrade-listener list and socket.io's handler at its tail, so the
interceptor runs first; and an upgrade request is bridged iff its path
differs from the reserved socket.io path, the reserved path itself being
left untouched. -/
theorem bridge_precedence_and_path_decision (initial : List UpgradeHandler)
    (url : Option String) :
    (startSocketListeners initial).head? = some .openClawBridge ∧
    (startSocketListeners initial).getLast? = some .socketIoHandler ∧
    (upgradeBridges url = true ↔ upgradePath url ≠ SOCKET_IO_PATH) ∧
    upgradeBridges (some SOCKET_IO_PATH) = false := by
  refine ⟨rfl, ?_, ?_, ?_⟩
  · exact List.getLast?_concat _
  · simp [upgradeBridges]
  · decide

/-- Characterisation of the extracted path when a query string follows a
question-mark-free path. -/
theorem upgradePath_append_query (s q : String)
    (h : ∀ c ∈ s.toList, c ≠ '?') :
    upgradePath (some (s ++ "?" ++ q)) = s := by
  unfold upgradePath
  have hlist : (s ++ "?" ++ q).toList = s.toList ++ ('?' :: q.toList) := by
    show (s.toList ++ "?".toList) ++ q.toList = s.toList ++ ('?' :: q.toList)
    rw [List.append_assoc]
    rfl
  rw [Option.getD_some, hlist,
    List.takeWhile_append_of_pos (by intro a ha; exact decide_eq_true (h a ha)),
    List.takeWhile_cons_of_neg (by decide), List.append_nil]
  rfl

/-- C10: the interceptor's path check strips everything from the first
question mark, so the reserved path with any query string is not bridged,
while a request with an absent URL is treated as path "/" and bridged. -/
theorem query_string_and_absent_url (q : String) :
    upgradeBridges (some (SOCKET_IO_PATH ++ "?" ++ q)) = false ∧
    upgradeBridges none = true := by
  constructor
  · have hpath := upgradePath_append_query SOCKET_IO_PATH q (by decide)
    simp [upgradeBridges, hpath]
  · decide

/-- C7: the notify endpoint returns 401 when the shared-secret header is
absent or mismatched; with a valid secret and configured user it returns 503
when the registry has no connections for the configured user, and otherwise
queries the registry, forwards a notification payload with the request's
message and a timestamp for the configured user, and acknowledges with 200. -/
theorem agent_notify_responses (xTok envTok envUid : Option String)
    (getConnections : String → Option (List ClientConnection))
    (message : String) (now : Nat) :
    ((¬ strTruthy envTok ∨ xTok ≠ envTok) →
      agentNotifyHandler xTok envTok envUid getConnections message now =
        (401, [])) ∧
    (strTruthy envTok → xTok = envTok → strTruthy envUid →
      (((getConnections (envUid.getD "")).getD [] = [] →
        agentNotifyHandler xTok envTok envUid getConnections message now =
          (503, [.queryConnections (envUid.getD "")])) ∧
      ((getConnections (envUid.getD "")).getD [] ≠ [] →
        agentNotifyHandler xTok envTok envUid getConnections message now =
          (200, [.queryConnections (envUid.getD ""),
                 .emit (envUid.getD "") (.notification message now) none])))) := by
  constructor
  · intro h
    unfold agentNotifyHandler
    rw [if_pos h]
  · intro hT hM hU
    unfold agentNotifyHandler
    rw [if_neg (not_or.mpr ⟨not_not_intro hT, not_not_intro hM⟩),
      if_neg (not_not_intro hU)]
    cases hg : getConnections (envUid.getD "") with
    | none =>
      constructor
      · intro _
        simp [hg]
      · intro hne
        exact absurd rfl hne
    | some cs =>
      cases cs with
      | nil =>
        constructor
        · intro _
          simp [hg]
        · intro hne
          exact absurd rfl hne
      | cons c cs' =>
        constructor
        · intro he
          simp at he
        · intro _
          simp [hg]

/-- Witness for C7: with matching secret, configured user and one live
connection the endpoint acknowledges and forwards the notification. -/
theorem agent_notify_responses_witness :
    agentNotifyHandler (some "s") (some "s") (some "u")
      (fun _ => some [.userScoped 0 "u"]) "hi" 9 =
      (200, [.queryConnections "u", .emit "u" (.notification "hi" 9) none]) :=
  ((agent_notify_responses (some "s") (some "s") (some "u")
      (fun _ => some [.userScoped 0 "u"]) "hi" 9).2
    (by decide) rfl (by decide)).2 (by decide)

/-- C9: with no configured shared secret every request is 401 regardless of
the header; with a valid secret but no configured user id the endpoint
answers 503 with no registry query at all (empty action list). -/
theorem agent_notify_unconfigured (xTok envUid : Option String)
    (getConnections : String → Option (List ClientConnection))
    (message : String) (now : Nat) :
    agentNotifyHandler xTok none envUid getConnections message now =
      (401, []) ∧
    (∀ envTok, strTruthy envTok → xTok = envTok →
      agentNotifyHandler xTok envTok none getConnections message now =
        (503, [])) := by
  constructor
  · unfold agentNotifyHandler
    rw [if_pos (Or.inl (by decide))]
  · intro envTok hT hM
    unfold agentNotifyHandler
    rw [if_neg (not_or.mpr ⟨not_not_intro hT, not_not_intro hM⟩),
      if_pos (by decide)]

/-- Witness for C9: valid secret but unconfigured user id yields 503 with an
empty action list, the registry untouched. -/
theorem agent_notify_unconfigured_witness :
    agentNotifyHandler (some "s") (some "s") none
      (fun _ => some [.userScoped 0 "u"]) "m" 0 = (503, []) :=
  (agent_notify_unconfigured (some "s") (some "u")
      (fun _ => some [.userScoped 0 "u"]) "m" 0).2 (some "s") (by decide) rfl

end HappyServer
